import Mathlib

/-!
Shallow embedding of `nerfstudio/viewer/export_panel.py`.

The module is a GUI wiring layer: it populates an export tab with three
folders (Splat, Point Cloud, Mesh), and installs click handlers that read
widget values, construct an external exporter object, call its blocking
`main()` and then show a completion/error notification.

Modelling choices:
* GUI construction is embedded as a pure description: each `populate_*` call
  returns the list of GUI elements it adds, in order.
* Click handlers are embedded as functions from the click-time state (the
  widgets' current values, the control panel) to the list of observable
  events they perform, in order (notification calls, the `main()` call).
* External collaborators (viser's `SO3.from_matrix(...).as_rpy_radians()`
  and the exporter objects with their post-`main()` `complete` flag) are
  parameters bundled in an `Externals` structure.
* Python floats become rationals; `f"\x7bx:.10f\x7d"` becomes `fmt10`, a
  fixed-point rendering with exactly ten digits after the decimal point.
* Python's tuple-unpacking `a, b, c = e` becomes `destructure3`, which
  fails (models the `ValueError`) unless `e` is a 3-element list or a
  3-character string.
-/

namespace ExportPanel

/-- A 3-vector of scalars: the result of `obb.T.squeeze().tolist()` and
`obb.S.squeeze().tolist()`, and of `as_rpy_radians()`. -/
structure Vec3 where
  x : ℚ
  y : ℚ
  z : ℚ
deriving DecidableEq

/-- A 3x3 matrix (the rotation tensor `obb.R` after `.numpy(force=True)`). -/
abbrev Mat3 := List (List ℚ)

/-- `nerfstudio.data.scene_box.OrientedBox`: rotation `R`, translation `T`,
scale `S` (the latter two already squeezed to 3-vectors). -/
structure OrientedBox where
  R : Mat3
  T : Vec3
  S : Vec3
deriving DecidableEq

/-- `pathlib.Path` wrapping a string, as in `Path(output_dir.value)`. -/
structure Path where
  s : String
deriving DecidableEq

/-- The character for a decimal digit `n < 10`. -/
def digitChar (n : Nat) : Char :=
  Char.ofNat (48 + n)

/-- The ten fractional digits of `m < 10 ^ 10`, most significant first. -/
def fracDigitsStr (m : Nat) : String :=
  String.mk ((List.range 10).map (fun i => digitChar (m / 10 ^ (9 - i) % 10)))

/-- `|q|` scaled by `10 ^ 10` and rounded to the nearest integer (rational
model of the rounding performed by CPython's `f"\x7bx:.10f\x7d"`). -/
def fmt10Scaled (q : ℚ) : Nat :=
  (⌊|q| * 10 ^ 10 + 1 / 2⌋).toNat

/-- Rational model of Python's `f"\x7bx:.10f\x7d"`: sign, integer part, a dot,
then exactly ten fractional digits. -/
def fmt10 (q : ℚ) : String :=
  (if q < 0 then "-" else "") ++ toString (fmt10Scaled q / 10 ^ 10) ++ "." ++
    fracDigitsStr (fmt10Scaled q % 10 ^ 10)

/-- `" ".join([f"\x7bx:.10f\x7d" for x in v])` over a squeezed 3-vector. -/
def vec3String (v : Vec3) : String :=
  String.intercalate " " ([v.x, v.y, v.z].map fmt10)

/-- A Python value that is either a `str` or a `List[str]`: the two shapes
`get_crop_string` can actually return, despite its `List[str]` annotation. -/
inductive CropRet where
  | pyStr (s : String)
  | pyList (l : List String)
deriving DecidableEq

/-- The constructor arguments of `nerfstudio.scripts.exporter.ExportPointCloud`
as passed at export_panel.py lines 174-184. -/
structure ExportPointCloudArgs where
  load_config : Path
  output_dir : Path
  num_points : Int
  remove_outliers : Bool
  normal_method : String
  save_world_frame : Bool
  obb_center : Option String
  obb_rotation : Option String
  obb_scale : Option String
deriving DecidableEq

/-- The constructor arguments of `ExportPoissonMesh` (lines 249-260). -/
structure ExportPoissonMeshArgs where
  load_config : Path
  output_dir : Path
  target_num_faces : Int
  num_pixels_per_side : Int
  num_points : Int
  remove_outliers : Bool
  normal_method : String
  obb_center : Option String
  obb_rotation : Option String
  obb_scale : Option String
deriving DecidableEq

/-- The constructor arguments of `ExportGaussianSplat` (lines 309-315). -/
structure ExportGaussianSplatArgs where
  load_config : Path
  output_dir : Path
  obb_center : Option String
  obb_rotation : Option String
  obb_scale : Option String
deriving DecidableEq

/-- One fully-constructed exporter object, about to have `main()` called. -/
inductive ExporterCall where
  | pointCloud (a : ExportPointCloudArgs)
  | poissonMesh (a : ExportPoissonMeshArgs)
  | gaussianSplat (a : ExportGaussianSplatArgs)
deriving DecidableEq

/-- The external collaborators of the module: viser's rpy extraction
`vtf.SO3.from_matrix(m).as_rpy_radians()`, and the exporter objects'
`complete` flag as observed right after their blocking `main()` returns. -/
structure Externals where
  as_rpy_radians : Mat3 → Vec3
  complete : ExporterCall → Bool

/-- `get_crop_string(obb, crop_viewport)` (export_panel.py lines 80-92):
returns `""` when `crop_viewport` is falsy, else the list
`[posstring, rpystring, scalestring]` built from `obb.T`, the
roll-pitch-yaw of `obb.R`, and `obb.S`, each formatted to 10 decimals and
joined by single spaces. -/
def get_crop_string (ext : Externals) (obb : OrientedBox) (crop_viewport : Bool) :
    CropRet :=
  if !crop_viewport then
    .pyStr ""
  else
    let rpy := ext.as_rpy_radians obb.R
    let pos := obb.T
    let scale := obb.S
    let rpystring := String.intercalate " " ([rpy.x, rpy.y, rpy.z].map fmt10)
    let posstring := String.intercalate " " ([pos.x, pos.y, pos.z].map fmt10)
    let scalestring := String.intercalate " " ([scale.x, scale.y, scale.z].map fmt10)
    .pyList [posstring, rpystring, scalestring]

/-- Python's `a, b, c = e` unpacking applied to a `CropRet`: succeeds on a
3-element list (or a 3-character string, char by char), otherwise raises
`ValueError`, modelled as `none`. -/
def destructure3 : CropRet → Option (String × String × String)
  | .pyList [a, b, c] => some (a, b, c)
  | .pyList _ => none
  | .pyStr s =>
    match s.toList with
    | [a, b, c] => some (String.mk [a], String.mk [b], String.mk [c])
    | _ => none

/-- One observable action performed by a click handler, in order: viser
notification calls and the blocking call to the exporter's `main()`.
`unpackError` models the `ValueError` raised by a failed tuple unpacking
(the handler stops there). `addNotif` carries title, body, the
`withCloseButton` and `loading` flags, and `autoClose` (`none` models
`autoClose=False`). `showNotif` is `notif.show()` on the notification whose
title is given. -/
inductive Event where
  | clearNotif
  | addNotif (title body : String) (withCloseButton loading : Bool) (autoClose : Option Nat)
  | showNotif (title : String)
  | callMain (c : ExporterCall)
  | unpackError
deriving DecidableEq

/-- `show_notification(export_complete, server, output_dir)` (lines 94-116),
as the sequence of viser calls it performs. Note that the source calls
`notif.show()` only in the `export_complete` branch: the error notification
is constructed but never shown. -/
def show_notification (export_complete : Bool) (output_dir : String) : List Event :=
  if export_complete then
    [Event.clearNotif,
     Event.addNotif "Export complete!" ("File saved under " ++ output_dir) true false (some 5000),
     Event.showNotif "Export complete!"]
  else
    [Event.clearNotif,
     Event.addNotif "Export error!"
       "Please try again after a checkpoint is saved after 2000 steps." true false (some 5000)]

/-- The state of the external `ControlPanel` object: the two fields this
module reads or writes (`crop_viewport`, `crop_obb`), plus `other`, an
abstract placeholder for every other field of the class (which lives
outside this fragment). -/
structure ControlPanel (α : Type) where
  crop_viewport : Bool
  crop_obb : Option OrientedBox
  other : α

/-- The guarded crop-string block repeated verbatim in the three click
handlers (lines 165-170, 240-245, 300-305): when `crop_obb is not None and
crop_viewport`, unpack `get_crop_string(crop_obb, crop_viewport)` into the
three strings; otherwise all three are `None`. `none` models the
`ValueError` of a failed unpacking. -/
def obbStringsOf {α : Type} (ext : Externals) (cp : ControlPanel α) :
    Option (Option String × Option String × Option String) :=
  match cp.crop_obb, cp.crop_viewport with
  | some obb, true =>
    (destructure3 (get_crop_string ext obb true)).map
      (fun t => (some t.1, some t.2.1, some t.2.2))
  | _, _ => some (none, none, none)

/-- The click-time values of the point-cloud tab's widgets. -/
structure PointCloudWidgets where
  num_points : Int
  world_frame : Bool
  remove_outliers : Bool
  normals : String
  output_dir : String

/-- The click-time values of the mesh tab's widgets. -/
structure MeshWidgets where
  normals : String
  num_faces : Int
  texture_resolution : Int
  output_dir : String
  num_points : Int
  remove_outliers : Bool

/-- The click-time values of the splat tab's widgets. -/
structure SplatWidgets where
  output_dir : String

/-- The point-cloud Export button's `on_click` handler (lines 153-189):
show a loading notification, compute the crop strings, construct
`ExportPointCloud` from the widgets' current values, call `main()`, then
run `show_notification` with the exporter's `complete` flag. -/
def pointCloudExportClick {α : Type} (ext : Externals) (config_path : Path)
    (w : PointCloudWidgets) (cp : ControlPanel α) : List Event :=
  Event.addNotif "Exporting point cloud" ("File will be saved under " ++ w.output_dir)
      true true none ::
  Event.showNotif "Exporting point cloud" ::
  match obbStringsOf ext cp with
  | none => [Event.unpackError]
  | some (posstring, rpystring, scalestring) =>
    let exporter := ExporterCall.pointCloud
      { load_config := config_path
        output_dir := ⟨w.output_dir⟩
        num_points := w.num_points
        remove_outliers := w.remove_outliers
        normal_method := w.normals
        save_world_frame := w.world_frame
        obb_center := posstring
        obb_rotation := rpystring
        obb_scale := scalestring }
    Event.callMain exporter :: show_notification (ext.complete exporter) w.output_dir

/-- The mesh Export button's `on_click` handler (lines 228-265). -/
def meshExportClick {α : Type} (ext : Externals) (config_path : Path)
    (w : MeshWidgets) (cp : ControlPanel α) : List Event :=
  Event.addNotif "Exporting poisson mesh" ("File will be saved under " ++ w.output_dir)
      true true none ::
  Event.showNotif "Exporting poisson mesh" ::
  match obbStringsOf ext cp with
  | none => [Event.unpackError]
  | some (posstring, rpystring, scalestring) =>
    let exporter := ExporterCall.poissonMesh
      { load_config := config_path
        output_dir := ⟨w.output_dir⟩
        target_num_faces := w.num_faces
        num_pixels_per_side := w.texture_resolution
        num_points := w.num_points
        remove_outliers := w.remove_outliers
        normal_method := w.normals
        obb_center := posstring
        obb_rotation := rpystring
        obb_scale := scalestring }
    Event.callMain exporter :: show_notification (ext.complete exporter) w.output_dir

/-- The splat Export button's `on_click` handler (lines 288-320). -/
def splatExportClick {α : Type} (ext : Externals) (config_path : Path)
    (w : SplatWidgets) (cp : ControlPanel α) : List Event :=
  Event.addNotif "Exporting gaussian splat" ("File will be saved under " ++ w.output_dir)
      true true none ::
  Event.showNotif "Exporting gaussian splat" ::
  match obbStringsOf ext cp with
  | none => [Event.unpackError]
  | some (posstring, rpystring, scalestring) =>
    let exporter := ExporterCall.gaussianSplat
      { load_config := config_path
        output_dir := ⟨w.output_dir⟩
        obb_center := posstring
        obb_rotation := rpystring
        obb_scale := scalestring }
    Event.callMain exporter :: show_notification (ext.complete exporter) w.output_dir

/-- The `"Use Crop"` checkbox's `on_update` handler (lines 39-41): it assigns
`control_panel.crop_viewport = crop_output.value` and performs no other
state change and no GUI action (the returned event list is its trace). -/
def crop_output_on_update {α : Type} (value : Bool) (cp : ControlPanel α) :
    ControlPanel α × List Event :=
  ({ cp with crop_viewport := value }, [])

/-- One GUI element added by the tab-population code. Fields follow the
viser calls: label, initial value, optional hint; numbers carry
`min`/`max`/`step` (`none` when omitted or `None`); buttons carry their
icon name. -/
inductive Widget where
  | markdown (content : String)
  | checkbox (label : String) (initial : Bool) (hint : Option String)
  | number (label : String) (initial : Int) (min max step : Option Int)
  | dropdown (label : String) (options : List String) (initial : String) (hint : Option String)
  | textInput (label : String) (initial : String)
  | button (label : String) (icon : Option String)
deriving DecidableEq

/-- A top-level element of the export tab: a bare widget, or a folder with
its contents (the folders here contain only plain widgets). -/
inductive Gui where
  | widget (w : Widget)
  | folder (label : String) (contents : List Widget)
deriving DecidableEq

/-- `populate_point_cloud_tab` (lines 119-194): the widgets it adds, in
order, as a function of `viewing_gsplat`. -/
def populate_point_cloud_tab (viewing_gsplat : Bool) : List Widget :=
  if !viewing_gsplat then
    [Widget.markdown "<small>Render depth, project to an oriented point cloud, and filter</small> ",
     Widget.number "# Points" 1000000 (some 1) none (some 1),
     Widget.checkbox "Save in world frame" false
       (some ("If checked, saves the point cloud in the same frame as the original dataset. Otherwise, uses the " ++
         "scaled and reoriented coordinate space expected by the NeRF models.")),
     Widget.checkbox "Remove outliers" true none,
     Widget.dropdown "Normals" ["open3d", "model_output"] "open3d" (some "Normal map source."),
     Widget.textInput "Output Directory" "exports/pcd/",
     Widget.button "Export" (some "TERMINAL_2")]
  else
    [Widget.markdown "<small>Point cloud export is not currently supported with Gaussian Splatting</small>"]

/-- `populate_mesh_tab` (lines 197-270): the widgets it adds, in order. -/
def populate_mesh_tab (viewing_gsplat : Bool) : List Widget :=
  if !viewing_gsplat then
    [Widget.markdown "<small>Render depth, project to an oriented point cloud, and run Poisson surface reconstruction</small>",
     Widget.dropdown "Normals" ["open3d", "model_output"] "open3d" (some "Source for normal maps."),
     Widget.number "# Faces" 50000 (some 1) none none,
     Widget.number "Texture Resolution" 2048 (some 8) none none,
     Widget.textInput "Output Directory" "exports/mesh/",
     Widget.number "# Points" 1000000 (some 1) none (some 1),
     Widget.checkbox "Remove outliers" true none,
     Widget.button "Export" (some "TERMINAL_2")]
  else
    [Widget.markdown "<small>Mesh export is not currently supported with Gaussian Splatting</small>"]

/-- `populate_splat_tab` (lines 273-325): the widgets it adds, in order. -/
def populate_splat_tab (viewing_gsplat : Bool) : List Widget :=
  if viewing_gsplat then
    [Widget.markdown "<small>Export ply of Gaussian Splat</small>",
     Widget.textInput "Output Directory" "exports/splat/",
     Widget.button "Export" (some "TERMINAL_2")]
  else
    [Widget.markdown "<small>Splat export is only supported with Gaussian Splatting methods</small>"]

/-- `populate_export_tab` (lines 29-48): when the viewer model is not a
`SplatfactoModel` (so `viewing_gsplat` is false) it first adds the
`"Use Crop"` checkbox (initial value `False`); then it adds the three
folders Splat, Point Cloud, Mesh, populated by the three tab functions. -/
def populate_export_tab (viewing_gsplat : Bool) : List Gui :=
  (if !viewing_gsplat then [Gui.widget (Widget.checkbox "Use Crop" false none)] else []) ++
  [Gui.folder "Splat" (populate_splat_tab viewing_gsplat),
   Gui.folder "Point Cloud" (populate_point_cloud_tab viewing_gsplat),
   Gui.folder "Mesh" (populate_mesh_tab viewing_gsplat)]

/-- Does `g` hold a `main()` call? -/
def isCallMain : Event → Bool
  | .callMain _ => true
  | _ => false

/-- Is `e` a `notif.show()` call? -/
def isShowNotif : Event → Bool
  | .showNotif _ => true
  | _ => false

/-- Is `g` a folder labelled `flabel` whose contents include an
`Export`-style button labelled `blabel`? -/
def folderContainsButton (g : Gui) (flabel blabel : String) : Bool :=
  match g with
  | .folder l contents =>
    l == flabel && contents.any (fun w =>
      match w with
      | .button b _ => b == blabel
      | _ => false)
  | _ => false

/-- Does the rendered tab have a folder `flabel` containing an Export button? -/
def tabHasExportButton (gs : List Gui) (flabel : String) : Bool :=
  gs.any (fun g => folderContainsButton g flabel "Export")

/-- The labels of the top-level folders, in order. -/
def folderLabels (gs : List Gui) : List String :=
  gs.filterMap (fun g =>
    match g with
    | .folder l _ => some l
    | _ => none)

/-- Is `g` a top-level checkbox with the given label? -/
def isTopLevelCheckbox (g : Gui) (label : String) : Bool :=
  match g with
  | .widget (.checkbox l _ _) => l == label
  | _ => false

/-- The value the crop-string block actually produces: the three formatted
strings when the guard `crop_obb is not None and crop_viewport` holds,
all `None` otherwise. -/
def obbVal {α : Type} (ext : Externals) (cp : ControlPanel α) :
    Option String × Option String × Option String :=
  match cp.crop_obb, cp.crop_viewport with
  | some obb, true =>
    (some (vec3String obb.T), some (vec3String (ext.as_rpy_radians obb.R)),
      some (vec3String obb.S))
  | _, _ => (none, none, none)

/-- Concrete externals used to instantiate universally quantified results. -/
def extEx : Externals where
  as_rpy_radians := fun _ => ⟨0, 0, 0⟩
  complete := fun _ => true

/-- A concrete oriented bounding box. -/
def obbEx : OrientedBox where
  R := [[1, 0, 0], [0, 1, 0], [0, 0, 1]]
  T := ⟨1, 2, 3⟩
  S := ⟨1, 1, 1⟩

/-- A concrete control-panel state with an active crop. -/
def cpCropEx : ControlPanel Nat where
  crop_viewport := true
  crop_obb := some obbEx
  other := 0

/-- A concrete control-panel state with no crop box. -/
def cpNoCropEx : ControlPanel Nat where
  crop_viewport := false
  crop_obb := none
  other := 5

/-- Concrete point-cloud widget values (the widgets' initial values). -/
def pcwEx : PointCloudWidgets where
  num_points := 1000000
  world_frame := false
  remove_outliers := true
  normals := "open3d"
  output_dir := "exports/pcd/"

/-- Concrete mesh widget values (the widgets' initial values). -/
def mwEx : MeshWidgets where
  normals := "open3d"
  num_faces := 50000
  texture_resolution := 2048
  output_dir := "exports/mesh/"
  num_points := 1000000
  remove_outliers := true

/-- Concrete splat widget values (the widgets' initial values). -/
def swEx : SplatWidgets where
  output_dir := "exports/splat/"

theorem obbStringsOf_spec {α : Type} (ext : Externals) (cp : ControlPanel α) :
    obbStringsOf ext cp = some (obbVal ext cp) := by
  unfold obbStringsOf obbVal
  rcases h : cp.crop_obb with _ | obb <;> cases hv : cp.crop_viewport <;> rfl

theorem show_notification_countP_callMain (b : Bool) (d : String) :
    (show_notification b d).countP isCallMain = 0 := by
  cases b <;> rfl

theorem show_notification_no_unpackError (b : Bool) (d : String) :
    Event.unpackError ∉ show_notification b d := by
  cases b <;> simp [show_notification]

theorem pointCloud_click_eq {α : Type} (ext : Externals) (config : Path)
    (w : PointCloudWidgets) (cp : ControlPanel α)
    (prs : Option String × Option String × Option String)
    (h : obbStringsOf ext cp = some prs) :
    pointCloudExportClick ext config w cp =
      Event.addNotif "Exporting point cloud" ("File will be saved under " ++ w.output_dir)
          true true none ::
      Event.showNotif "Exporting point cloud" ::
      Event.callMain (ExporterCall.pointCloud
        { load_config := config
          output_dir := ⟨w.output_dir⟩
          num_points := w.num_points
          remove_outliers := w.remove_outliers
          normal_method := w.normals
          save_world_frame := w.world_frame
          obb_center := prs.1
          obb_rotation := prs.2.1
          obb_scale := prs.2.2 }) ::
      show_notification (ext.complete (ExporterCall.pointCloud
        { load_config := config
          output_dir := ⟨w.output_dir⟩
          num_points := w.num_points
          remove_outliers := w.remove_outliers
          normal_method := w.normals
          save_world_frame := w.world_frame
          obb_center := prs.1
          obb_rotation := prs.2.1
          obb_scale := prs.2.2 })) w.output_dir := by
  unfold pointCloudExportClick
  rw [h]

theorem mesh_click_eq {α : Type} (ext : Externals) (config : Path)
    (w : MeshWidgets) (cp : ControlPanel α)
    (prs : Option String × Option String × Option String)
    (h : obbStringsOf ext cp = some prs) :
    meshExportClick ext config w cp =
      Event.addNotif "Exporting poisson mesh" ("File will be saved under " ++ w.output_dir)
          true true none ::
      Event.showNotif "Exporting poisson mesh" ::
      Event.callMain (ExporterCall.poissonMesh
        { load_config := config
          output_dir := ⟨w.output_dir⟩
          target_num_faces := w.num_faces
          num_pixels_per_side := w.texture_resolution
          num_points := w.num_points
          remove_outliers := w.remove_outliers
          normal_method := w.normals
          obb_center := prs.1
          obb_rotation := prs.2.1
          obb_scale := prs.2.2 }) ::
      show_notification (ext.complete (ExporterCall.poissonMesh
        { load_config := config
          output_dir := ⟨w.output_dir⟩
          target_num_faces := w.num_faces
          num_pixels_per_side := w.texture_resolution
          num_points := w.num_points
          remove_outliers := w.remove_outliers
          normal_method := w.normals
          obb_center := prs.1
          obb_rotation := prs.2.1
          obb_scale := prs.2.2 })) w.output_dir := by
  unfold meshExportClick
  rw [h]

theorem splat_click_eq {α : Type} (ext : Externals) (config : Path)
    (w : SplatWidgets) (cp : ControlPanel α)
    (prs : Option String × Option String × Option String)
    (h : obbStringsOf ext cp = some prs) :
    splatExportClick ext config w cp =
      Event.addNotif "Exporting gaussian splat" ("File will be saved under " ++ w.output_dir)
          true true none ::
      Event.showNotif "Exporting gaussian splat" ::
      Event.callMain (ExporterCall.gaussianSplat
        { load_config := config
          output_dir := ⟨w.output_dir⟩
          obb_center := prs.1
          obb_rotation := prs.2.1
          obb_scale := prs.2.2 }) ::
      show_notification (ext.complete (ExporterCall.gaussianSplat
        { load_config := config
          output_dir := ⟨w.output_dir⟩
          obb_center := prs.1
          obb_rotation := prs.2.1
          obb_scale := prs.2.2 })) w.output_dir := by
  unfold splatExportClick
  rw [h]

/-- C1: the claim says that after `main()` returns, a notification is shown in
both cases: "Export complete!" when the `complete` flag is true and
"Export error!" when it is false, each after clearing the previous one.
Evaluating `show_notification` at the failing input `export_complete = false`
shows the divergence: the error branch clears and constructs the
"Export error!" notification but performs no `notif.show()` call, while the
completion branch does end with `notif.show()`. -/
theorem C1_error_notification_never_shown :
    show_notification true "exports/pcd/" =
      [Event.clearNotif,
       Event.addNotif "Export complete!" "File saved under exports/pcd/" true false (some 5000),
       Event.showNotif "Export complete!"] ∧
    show_notification false "exports/pcd/" =
      [Event.clearNotif,
       Event.addNotif "Export error!"
         "Please try again after a checkpoint is saved after 2000 steps." true false (some 5000)] ∧
    (show_notification false "exports/pcd/").all (fun e => !isShowNotif e) = true :=
  ⟨rfl, rfl, rfl⟩

/-- C2 counterexample: the claim says each of the three folders contains an
Export button regardless of the model's type; for a `SplatfactoModel`
(`viewing_gsplat = true`) the "Point Cloud" and "Mesh" folders contain no
Export button, so the conjunction fails at that concrete input. -/
theorem C2_counterexample :
    ¬ (tabHasExportButton (populate_export_tab true) "Splat" = true ∧
       tabHasExportButton (populate_export_tab true) "Point Cloud" = true ∧
       tabHasExportButton (populate_export_tab true) "Mesh" = true) := by
  decide

/-- C2 amended: the panel rendered by `populate_export_tab` exposes an Export
button only for the jobs applicable to the model's type: for a
`SplatfactoModel` exactly the Splat folder contains an Export button, and
for any other model exactly the Point Cloud and Mesh folders do. -/
theorem C2_export_buttons_by_model (viewing_gsplat : Bool) :
    tabHasExportButton (populate_export_tab viewing_gsplat) "Splat" = viewing_gsplat ∧
    tabHasExportButton (populate_export_tab viewing_gsplat) "Point Cloud" = !viewing_gsplat ∧
    tabHasExportButton (populate_export_tab viewing_gsplat) "Mesh" = !viewing_gsplat := by
  cases viewing_gsplat <;> exact ⟨by decide, by decide, by decide⟩

/-- C2 witness: the amended statement instantiated at a gsplat model. -/
theorem C2_export_buttons_by_model_witness :
    tabHasExportButton (populate_export_tab true) "Splat" = true ∧
    tabHasExportButton (populate_export_tab true) "Point Cloud" = !true ∧
    tabHasExportButton (populate_export_tab true) "Mesh" = !true :=
  C2_export_buttons_by_model true

/-- C3: on every Export click the exporter is constructed with each argument
equal to the corresponding widget's click-time value, untransformed
(`output_dir` passing through `Path(...)` as the claim states):
`ExportPointCloud` from `num_points`, `remove_outliers`, `normals`,
`world_frame`, `output_dir`; `ExportPoissonMesh` additionally from
`num_faces` (as `target_num_faces`) and `texture_resolution` (as
`num_pixels_per_side`); `ExportGaussianSplat` from `output_dir`; the obb
arguments come from the crop-string block. -/
theorem C3_constructor_pass_through {α : Type} (ext : Externals) (config : Path)
    (cp : ControlPanel α) (w1 : PointCloudWidgets) (w2 : MeshWidgets) (w3 : SplatWidgets) :
    ∃ p r s, obbStringsOf ext cp = some (p, r, s) ∧
      pointCloudExportClick ext config w1 cp =
        Event.addNotif "Exporting point cloud" ("File will be saved under " ++ w1.output_dir)
            true true none ::
        Event.showNotif "Exporting point cloud" ::
        Event.callMain (ExporterCall.pointCloud
          { load_config := config
            output_dir := ⟨w1.output_dir⟩
            num_points := w1.num_points
            remove_outliers := w1.remove_outliers
            normal_method := w1.normals
            save_world_frame := w1.world_frame
            obb_center := p
            obb_rotation := r
            obb_scale := s }) ::
        show_notification (ext.complete (ExporterCall.pointCloud
          { load_config := config
            output_dir := ⟨w1.output_dir⟩
            num_points := w1.num_points
            remove_outliers := w1.remove_outliers
            normal_method := w1.normals
            save_world_frame := w1.world_frame
            obb_center := p
            obb_rotation := r
            obb_scale := s })) w1.output_dir ∧
      meshExportClick ext config w2 cp =
        Event.addNotif "Exporting poisson mesh" ("File will be saved under " ++ w2.output_dir)
            true true none ::
        Event.showNotif "Exporting poisson mesh" ::
        Event.callMain (ExporterCall.poissonMesh
          { load_config := config
            output_dir := ⟨w2.output_dir⟩
            target_num_faces := w2.num_faces
            num_pixels_per_side := w2.texture_resolution
            num_points := w2.num_points
            remove_outliers := w2.remove_outliers
            normal_method := w2.normals
            obb_center := p
            obb_rotation := r
            obb_scale := s }) ::
        show_notification (ext.complete (ExporterCall.poissonMesh
          { load_config := config
            output_dir := ⟨w2.output_dir⟩
            target_num_faces := w2.num_faces
            num_pixels_per_side := w2.texture_resolution
            num_points := w2.num_points
            remove_outliers := w2.remove_outliers
            normal_method := w2.normals
            obb_center := p
            obb_rotation := r
            obb_scale := s })) w2.output_dir ∧
      splatExportClick ext config w3 cp =
        Event.addNotif "Exporting gaussian splat" ("File will be saved under " ++ w3.output_dir)
            true true none ::
        Event.showNotif "Exporting gaussian splat" ::
        Event.callMain (ExporterCall.gaussianSplat
          { load_config := config
            output_dir := ⟨w3.output_dir⟩
            obb_center := p
            obb_rotation := r
            obb_scale := s }) ::
        show_notification (ext.complete (ExporterCall.gaussianSplat
          { load_config := config
            output_dir := ⟨w3.output_dir⟩
            obb_center := p
            obb_rotation := r
            obb_scale := s })) w3.output_dir := by
  refine ⟨(obbVal ext cp).1, (obbVal ext cp).2.1, (obbVal ext cp).2.2,
    obbStringsOf_spec ext cp,
    pointCloud_click_eq ext config w1 cp (obbVal ext cp) (obbStringsOf_spec ext cp),
    mesh_click_eq ext config w2 cp (obbVal ext cp) (obbStringsOf_spec ext cp),
    splat_click_eq ext config w3 cp (obbVal ext cp) (obbStringsOf_spec ext cp)⟩

/-- C3 witness: the pass-through statement instantiated at concrete state. -/
theorem C3_constructor_pass_through_witness :
    ∃ p r s, obbStringsOf extEx cpCropEx = some (p, r, s) ∧
      pointCloudExportClick extEx ⟨"config.yml"⟩ pcwEx cpCropEx =
        Event.addNotif "Exporting point cloud"
            ("File will be saved under " ++ pcwEx.output_dir) true true none ::
        Event.showNotif "Exporting point cloud" ::
        Event.callMain (ExporterCall.pointCloud
          { load_config := ⟨"config.yml"⟩
            output_dir := ⟨pcwEx.output_dir⟩
            num_points := pcwEx.num_points
            remove_outliers := pcwEx.remove_outliers
            normal_method := pcwEx.normals
            save_world_frame := pcwEx.world_frame
            obb_center := p
            obb_rotation := r
            obb_scale := s }) ::
        show_notification (extEx.complete (ExporterCall.pointCloud
          { load_config := ⟨"config.yml"⟩
            output_dir := ⟨pcwEx.output_dir⟩
            num_points := pcwEx.num_points
            remove_outliers := pcwEx.remove_outliers
            normal_method := pcwEx.normals
            save_world_frame := pcwEx.world_frame
            obb_center := p
            obb_rotation := r
            obb_scale := s })) pcwEx.output_dir ∧
      meshExportClick extEx ⟨"config.yml"⟩ mwEx cpCropEx =
        Event.addNotif "Exporting poisson mesh"
            ("File will be saved under " ++ mwEx.output_dir) true true none ::
        Event.showNotif "Exporting poisson mesh" ::
        Event.callMain (ExporterCall.poissonMesh
          { load_config := ⟨"config.yml"⟩
            output_dir := ⟨mwEx.output_dir⟩
            target_num_faces := mwEx.num_faces
            num_pixels_per_side := mwEx.texture_resolution
            num_points := mwEx.num_points
            remove_outliers := mwEx.remove_outliers
            normal_method := mwEx.normals
            obb_center := p
            obb_rotation := r
            obb_scale := s }) ::
        show_notification (extEx.complete (ExporterCall.poissonMesh
          { load_config := ⟨"config.yml"⟩
            output_dir := ⟨mwEx.output_dir⟩
            target_num_faces := mwEx.num_faces
            num_pixels_per_side := mwEx.texture_resolution
            num_points := mwEx.num_points
            remove_outliers := mwEx.remove_outliers
            normal_method := mwEx.normals
            obb_center := p
            obb_rotation := r
            obb_scale := s })) mwEx.output_dir ∧
      splatExportClick extEx ⟨"config.yml"⟩ swEx cpCropEx =
        Event.addNotif "Exporting gaussian splat"
            ("File will be saved under " ++ swEx.output_dir) true true none ::
        Event.showNotif "Exporting gaussian splat" ::
        Event.callMain (ExporterCall.gaussianSplat
          { load_config := ⟨"config.yml"⟩
            output_dir := ⟨swEx.output_dir⟩
            obb_center := p
            obb_rotation := r
            obb_scale := s }) ::
        show_notification (extEx.complete (ExporterCall.gaussianSplat
          { load_config := ⟨"config.yml"⟩
            output_dir := ⟨swEx.output_dir⟩
            obb_center := p
            obb_rotation := r
            obb_scale := s })) swEx.output_dir :=
  C3_constructor_pass_through extEx ⟨"config.yml"⟩ cpCropEx pcwEx mwEx swEx

/-- C4: the obb strings handed to every exporter constructor are derived
from the crop OBB (position from `T`, roll-pitch-yaw radians from `R`,
scale from `S`, each three numbers formatted to 10 decimals joined by
spaces) exactly when `crop_obb` is not `None` and `crop_viewport` is true;
otherwise all three are `None`. -/
theorem C4_obb_strings_iff {α : Type} (ext : Externals) (cp : ControlPanel α) :
    (∀ obb, cp.crop_obb = some obb → cp.crop_viewport = true →
      obbStringsOf ext cp =
        some (some (vec3String obb.T), some (vec3String (ext.as_rpy_radians obb.R)),
          some (vec3String obb.S))) ∧
    (cp.crop_obb = none ∨ cp.crop_viewport = false →
      obbStringsOf ext cp = some (none, none, none)) := by
  constructor
  · intro obb h1 h2
    unfold obbStringsOf
    rw [h1, h2]
    rfl
  · intro h
    unfold obbStringsOf
    rcases h with h | h
    · rw [h]
    · rw [h]
      rcases cp.crop_obb with _ | obb <;> rfl

/-- C4 witness: both sides of the iff at concrete panels. -/
theorem C4_obb_strings_iff_witness :
    obbStringsOf extEx cpCropEx =
      some (some (vec3String obbEx.T), some (vec3String (extEx.as_rpy_radians obbEx.R)),
        some (vec3String obbEx.S)) ∧
    obbStringsOf extEx cpNoCropEx = some (none, none, none) :=
  ⟨(C4_obb_strings_iff extEx cpCropEx).1 obbEx rfl rfl,
   (C4_obb_strings_iff extEx cpNoCropEx).2 (Or.inl rfl)⟩

/-- C5: on every Export click the events happen in order: the loading
notification is added and shown, then `main()` is called exactly once, then
the completion/error step `show_notification` runs with the exporter's
`complete` flag; no result notification precedes the `main()` call. -/
theorem C5_event_order {α : Type} (ext : Externals) (config : Path)
    (cp : ControlPanel α) (w1 : PointCloudWidgets) (w2 : MeshWidgets) (w3 : SplatWidgets) :
    ∃ c1 c2 c3,
      pointCloudExportClick ext config w1 cp =
        [Event.addNotif "Exporting point cloud" ("File will be saved under " ++ w1.output_dir)
            true true none,
         Event.showNotif "Exporting point cloud"] ++
        Event.callMain c1 :: show_notification (ext.complete c1) w1.output_dir ∧
      (pointCloudExportClick ext config w1 cp).countP isCallMain = 1 ∧
      meshExportClick ext config w2 cp =
        [Event.addNotif "Exporting poisson mesh" ("File will be saved under " ++ w2.output_dir)
            true true none,
         Event.showNotif "Exporting poisson mesh"] ++
        Event.callMain c2 :: show_notification (ext.complete c2) w2.output_dir ∧
      (meshExportClick ext config w2 cp).countP isCallMain = 1 ∧
      splatExportClick ext config w3 cp =
        [Event.addNotif "Exporting gaussian splat" ("File will be saved under " ++ w3.output_dir)
            true true none,
         Event.showNotif "Exporting gaussian splat"] ++
        Event.callMain c3 :: show_notification (ext.complete c3) w3.output_dir ∧
      (splatExportClick ext config w3 cp).countP isCallMain = 1 := by
  refine ⟨_, _, _,
    pointCloud_click_eq ext config w1 cp (obbVal ext cp) (obbStringsOf_spec ext cp), ?_,
    mesh_click_eq ext config w2 cp (obbVal ext cp) (obbStringsOf_spec ext cp), ?_,
    splat_click_eq ext config w3 cp (obbVal ext cp) (obbStringsOf_spec ext cp), ?_⟩
  · rw [pointCloud_click_eq ext config w1 cp (obbVal ext cp) (obbStringsOf_spec ext cp)]
    simp [List.countP_cons, isCallMain, show_notification_countP_callMain]
  · rw [mesh_click_eq ext config w2 cp (obbVal ext cp) (obbStringsOf_spec ext cp)]
    simp [List.countP_cons, isCallMain, show_notification_countP_callMain]
  · rw [splat_click_eq ext config w3 cp (obbVal ext cp) (obbStringsOf_spec ext cp)]
    simp [List.countP_cons, isCallMain, show_notification_countP_callMain]

/-- C5 witness: the ordering statement instantiated at concrete state. -/
theorem C5_event_order_witness :
    ∃ c1 c2 c3,
      pointCloudExportClick extEx ⟨"config.yml"⟩ pcwEx cpNoCropEx =
        [Event.addNotif "Exporting point cloud"
            ("File will be saved under " ++ pcwEx.output_dir) true true none,
         Event.showNotif "Exporting point cloud"] ++
        Event.callMain c1 :: show_notification (extEx.complete c1) pcwEx.output_dir ∧
      (pointCloudExportClick extEx ⟨"config.yml"⟩ pcwEx cpNoCropEx).countP isCallMain = 1 ∧
      meshExportClick extEx ⟨"config.yml"⟩ mwEx cpNoCropEx =
        [Event.addNotif "Exporting poisson mesh"
            ("File will be saved under " ++ mwEx.output_dir) true true none,
         Event.showNotif "Exporting poisson mesh"] ++
        Event.callMain c2 :: show_notification (extEx.complete c2) mwEx.output_dir ∧
      (meshExportClick extEx ⟨"config.yml"⟩ mwEx cpNoCropEx).countP isCallMain = 1 ∧
      splatExportClick extEx ⟨"config.yml"⟩ swEx cpNoCropEx =
        [Event.addNotif "Exporting gaussian splat"
            ("File will be saved under " ++ swEx.output_dir) true true none,
         Event.showNotif "Exporting gaussian splat"] ++
        Event.callMain c3 :: show_notification (extEx.complete c3) swEx.output_dir ∧
      (splatExportClick extEx ⟨"config.yml"⟩ swEx cpNoCropEx).countP isCallMain = 1 :=
  C5_event_order extEx ⟨"config.yml"⟩ cpNoCropEx pcwEx mwEx swEx

/-- C6: `get_crop_string` returns the string `""` (not a list) when
`crop_viewport` is false, and a list of exactly three strings
`[posstring, rpystring, scalestring]` when it is true, each the
space-separated join of three numbers rendered with exactly ten digits
after the decimal point; the false branch therefore does not match the
declared `List[str]` return type. -/
theorem C6_get_crop_string_shape (ext : Externals) (obb : OrientedBox) (q : ℚ) :
    get_crop_string ext obb false = CropRet.pyStr "" ∧
    (∀ l : List String, get_crop_string ext obb false ≠ CropRet.pyList l) ∧
    get_crop_string ext obb true =
      CropRet.pyList [vec3String obb.T, vec3String (ext.as_rpy_radians obb.R),
        vec3String obb.S] ∧
    vec3String obb.T = fmt10 obb.T.x ++ " " ++ fmt10 obb.T.y ++ " " ++ fmt10 obb.T.z ∧
    ∃ ip fp, fmt10 q = ip ++ "." ++ fp ∧ fp.length = 10 := by
  refine ⟨rfl, ?_, rfl, rfl, ?_⟩
  · intro l h
    simp [get_crop_string] at h
  · exact ⟨(if q < 0 then "-" else "") ++ toString (fmt10Scaled q / 10 ^ 10),
      fracDigitsStr (fmt10Scaled q % 10 ^ 10), rfl, rfl⟩

/-- C6 witness: the shape statement at a concrete box and scalar. -/
theorem C6_get_crop_string_shape_witness :
    get_crop_string extEx obbEx false = CropRet.pyStr "" ∧
    (∀ l : List String, get_crop_string extEx obbEx false ≠ CropRet.pyList l) ∧
    get_crop_string extEx obbEx true =
      CropRet.pyList [vec3String obbEx.T, vec3String (extEx.as_rpy_radians obbEx.R),
        vec3String obbEx.S] ∧
    vec3String obbEx.T = fmt10 obbEx.T.x ++ " " ++ fmt10 obbEx.T.y ++ " " ++ fmt10 obbEx.T.z ∧
    ∃ ip fp, fmt10 (1 / 2 : ℚ) = ip ++ "." ++ fp ∧ fp.length = 10 :=
  C6_get_crop_string_shape extEx obbEx (1 / 2)

/-- C7: every call site guards `get_crop_string` behind
`crop_obb is not None and crop_viewport`, under which the call returns a
3-element list that unpacks successfully: the unpack `ValueError` is
unreachable in all three click handlers. -/
theorem C7_destructure_never_fails {α : Type} (ext : Externals) (obb : OrientedBox)
    (cp : ControlPanel α) (config : Path)
    (w1 : PointCloudWidgets) (w2 : MeshWidgets) (w3 : SplatWidgets) :
    (∃ a b c, get_crop_string ext obb true = CropRet.pyList [a, b, c] ∧
       destructure3 (get_crop_string ext obb true) = some (a, b, c)) ∧
    (∃ prs, obbStringsOf ext cp = some prs) ∧
    Event.unpackError ∉ pointCloudExportClick ext config w1 cp ∧
    Event.unpackError ∉ meshExportClick ext config w2 cp ∧
    Event.unpackError ∉ splatExportClick ext config w3 cp := by
  refine ⟨⟨_, _, _, rfl, rfl⟩, ⟨obbVal ext cp, obbStringsOf_spec ext cp⟩, ?_, ?_, ?_⟩
  · rw [pointCloud_click_eq ext config w1 cp (obbVal ext cp) (obbStringsOf_spec ext cp)]
    simp [show_notification_no_unpackError]
  · rw [mesh_click_eq ext config w2 cp (obbVal ext cp) (obbStringsOf_spec ext cp)]
    simp [show_notification_no_unpackError]
  · rw [splat_click_eq ext config w3 cp (obbVal ext cp) (obbStringsOf_spec ext cp)]
    simp [show_notification_no_unpackError]

/-- C7 witness: the safety statement at concrete state. -/
theorem C7_destructure_never_fails_witness :
    (∃ a b c, get_crop_string extEx obbEx true = CropRet.pyList [a, b, c] ∧
       destructure3 (get_crop_string extEx obbEx true) = some (a, b, c)) ∧
    (∃ prs, obbStringsOf extEx cpCropEx = some prs) ∧
    Event.unpackError ∉ pointCloudExportClick extEx ⟨"config.yml"⟩ pcwEx cpCropEx ∧
    Event.unpackError ∉ meshExportClick extEx ⟨"config.yml"⟩ mwEx cpCropEx ∧
    Event.unpackError ∉ splatExportClick extEx ⟨"config.yml"⟩ swEx cpCropEx :=
  C7_destructure_never_fails extEx obbEx cpCropEx ⟨"config.yml"⟩ pcwEx mwEx swEx

/-- C8: `populate_export_tab` always creates exactly the three folders
"Splat", "Point Cloud", "Mesh" in that order, and it adds a "Use Crop"
checkbox, initially unchecked, placed before the folders, exactly when the
viewer model is not a `SplatfactoModel` (`viewing_gsplat = false`). -/
theorem C8_export_tab_layout (viewing_gsplat : Bool) :
    folderLabels (populate_export_tab viewing_gsplat) = ["Splat", "Point Cloud", "Mesh"] ∧
    (populate_export_tab viewing_gsplat).any (fun g => isTopLevelCheckbox g "Use Crop") =
      !viewing_gsplat ∧
    (if viewing_gsplat then True
     else (populate_export_tab viewing_gsplat).head? =
       some (Gui.widget (Widget.checkbox "Use Crop" false none))) := by
  cases viewing_gsplat <;> exact ⟨by decide, by decide, by decide⟩

/-- C8 witness: the layout statement instantiated at a non-gsplat model. -/
theorem C8_export_tab_layout_witness :
    folderLabels (populate_export_tab false) = ["Splat", "Point Cloud", "Mesh"] ∧
    (populate_export_tab false).any (fun g => isTopLevelCheckbox g "Use Crop") = !false ∧
    (if false then True
     else (populate_export_tab false).head? =
       some (Gui.widget (Widget.checkbox "Use Crop" false none))) :=
  C8_export_tab_layout false

/-- C9: the "Use Crop" checkbox's update handler sets
`control_panel.crop_viewport` to the checkbox's current value and changes
nothing else: `crop_obb` and every other control-panel field keep their
values, and the handler performs no GUI action (its event trace is empty). -/
theorem C9_crop_handler_frame {α : Type} (value : Bool) (cp : ControlPanel α) :
    (crop_output_on_update value cp).1.crop_viewport = value ∧
    (crop_output_on_update value cp).1.crop_obb = cp.crop_obb ∧
    (crop_output_on_update value cp).1.other = cp.other ∧
    (crop_output_on_update value cp).2 = [] :=
  ⟨rfl, rfl, rfl, rfl⟩

/-- C9 witness: the frame statement instantiated at a concrete panel. -/
theorem C9_crop_handler_frame_witness :
    (crop_output_on_update true cpNoCropEx).1.crop_viewport = true ∧
    (crop_output_on_update true cpNoCropEx).1.crop_obb = cpNoCropEx.crop_obb ∧
    (crop_output_on_update true cpNoCropEx).1.other = cpNoCropEx.other ∧
    (crop_output_on_update true cpNoCropEx).2 = [] :=
  C9_crop_handler_frame true cpNoCropEx

end ExportPanel
